import Mathlib

/-!
Verification of the slide content placement engine
(`app/powerpoint/tools.py`): the content-fit analyzer
`check_content_fit`, the layout resolution and content distribution logic of
`add_slide_from_blob_url`, and the batch update applicator
`update_powerpoint_file`.

Strings are modelled as Lean `String`s, and the Python string operations used
by the engine (`strip`, `split('\n')`, `split()`, `upper`, `lower`,
`startswith`, `in`, `'\n'.join`) are given structural-recursion definitions
over the underlying character lists so that every definition is executable by
the kernel.
-/

namespace PptxTools

/-! ## Python string primitives -/

/-- `s.split(sep)` for a single-character separator, Python semantics:
splitting the empty string yields `[""]`. -/
def splitOnPred (p : Char → Bool) : List Char → List (List Char)
  | [] => [[]]
  | x :: xs =>
    let r := splitOnPred p xs
    if p x then [] :: r
    else (x :: r.headD []) :: r.tail

/-- `str.strip()`: drop whitespace from both ends. -/
def stripChars (l : List Char) : List Char :=
  ((l.dropWhile Char.isWhitespace).reverse.dropWhile Char.isWhitespace).reverse

/-- `content.strip()` on strings. -/
def pyStrip (s : String) : String := ⟨stripChars s.data⟩

/-- `content.strip().split('\n')`, the line list used by `check_content_fit`. -/
def pyLines (s : String) : List String :=
  (splitOnPred (fun c => c = '\n') (pyStrip s).data).map String.mk

/-- `content.split('\n')`, the line list used by `add_slide_from_blob_url`
(no stripping). -/
def contentLines (s : String) : List String :=
  (splitOnPred (fun c => c = '\n') s.data).map String.mk

/-- `len(s.split())`: number of whitespace-separated words, Python semantics
(empty pieces are discarded). -/
def pyWordCount (s : String) : Nat :=
  ((splitOnPred Char.isWhitespace s.data).filter (fun w => w ≠ [])).length

/-- `line.upper()`. -/
def upperStr (s : String) : String := ⟨s.data.map Char.toUpper⟩

/-- `s.lower()`. -/
def lowerStr (s : String) : String := ⟨s.data.map Char.toLower⟩

/-- Python substring test `needle in hay` on character lists. -/
def containsSub (needle : List Char) : List Char → Bool
  | [] => decide (needle = [])
  | c :: rest => needle.isPrefixOf (c :: rest) || containsSub needle rest

/-- `s.startswith(pre)`. -/
def pyStartsWith (pre s : String) : Bool := pre.data.isPrefixOf s.data

/-- `'\n'.join(ls)`. -/
def joinNL (ls : List String) : String :=
  ⟨((ls.map String.data).intersperse ['\n']).flatten⟩

/-- `"LEFT COLUMN:" in line.upper()`. -/
def hasLeftMarker (line : String) : Bool :=
  containsSub "LEFT COLUMN:".data (upperStr line).data

/-- `"RIGHT COLUMN:" in line.upper()`. -/
def hasRightMarker (line : String) : Bool :=
  containsSub "RIGHT COLUMN:".data (upperStr line).data

/-! ## `check_content_fit` -/

/-- The `suggested_font_size` dictionary of a `FitResult`. -/
structure FontSizeSuggestion where
  title : Option Nat
  subtitle : Option Nat
  body : Option Nat
deriving DecidableEq

/-- The dictionary returned by `check_content_fit`. -/
structure FitResult where
  fits : Bool
  warnings : List String
  suggested_font_size : FontSizeSuggestion
  content_complexity : Nat
deriving DecidableEq

/-- `is_bullet`: the trimmed line starts with `-` or `•`. -/
def is_bullet (t : String) : Bool :=
  pyStartsWith "-" t || pyStartsWith "•" t

/-- `is_numbered`: `len(t) > 2 and t[0].isdigit() and t[1] == '.'`
on the trimmed line. -/
def is_numbered (t : String) : Bool :=
  match t.data with
  | c0 :: c1 :: _ :: _ => c0.isDigit && c1 = '.'
  | _ => false

/-- Whether a raw line is counted as a bullet by the bullet-counting loop of
`check_content_fit` (bullet or numbered, after trimming). -/
def countsAsBullet (line : String) : Bool :=
  is_bullet (pyStrip line) || is_numbered (pyStrip line)

/-- The bullet-counting loop of `check_content_fit`: state is the pair of
column flags `(in_left_column, in_right_column)`; returns
`(left_bullets, right_bullets, in_left_column, in_right_column)` where the
flags are their values after the loop. -/
def bulletScan : List String → Bool → Bool → Nat × Nat × Bool × Bool
  | [], inL, inR => (0, 0, inL, inR)
  | line :: rest, inL, inR =>
    if hasLeftMarker line then bulletScan rest true false
    else if hasRightMarker line then bulletScan rest false true
    else
      let r := bulletScan rest inL inR
      if countsAsBullet line then
        if inR then (r.1, r.2.1 + 1, r.2.2)
        else (r.1 + 1, r.2.1, r.2.2)
      else r

/-- `check_content_fit(content, max_title_words, max_lines,
max_bullets_per_column, max_chars_per_line)`. -/
def check_content_fit (content : String) (max_title_words : Nat := 10)
    (max_lines : Nat := 15) (max_bullets_per_column : Nat := 8)
    (max_chars_per_line : Nat := 80) : FitResult :=
  if pyStrip content = "" then
    { fits := true, warnings := ["Content is empty"],
      suggested_font_size := { title := none, subtitle := none, body := none },
      content_complexity := 0 }
  else
    let lines := pyLines content
    let total_lines := lines.length
    -- Check title length
    let title_words := pyWordCount (lines.headD "")
    let warnings1 : List String :=
      if title_words > max_title_words then
        [s!"Title contains {title_words} words, which exceeds the recommended maximum of {max_title_words}"]
      else []
    let score1 : Nat :=
      if title_words > max_title_words then
        min 25 ((title_words - max_title_words) * 5)
      else 0
    let fs_title : Option Nat :=
      if title_words > max_title_words then
        (if title_words > max_title_words + 5 then some 28 else some 32)
      else none
    -- Check for very long lines
    let long_lines := lines.filter (fun l => l.data.length > max_chars_per_line)
    let num_long := long_lines.length
    let warnings2 := warnings1 ++
      (if num_long > 0 then
        [s!"Found {num_long} lines that exceed {max_chars_per_line} characters"]
      else [])
    let score2 := score1 + (if num_long > 0 then min 25 (num_long * 5) else 0)
    let body2 : Option Nat := if num_long > 2 then some 16 else none
    -- Count bullet points
    let bs := bulletScan lines false false
    let left_bullets := bs.1
    let right_bullets := bs.2.1
    let in_left_column := bs.2.2.1
    let in_right_column := bs.2.2.2
    let total_bullets := left_bullets + right_bullets
    -- Check total number of bullets
    let warnings3 := warnings2 ++
      (if total_bullets > max_bullets_per_column * 2 then
        [s!"Total of {total_bullets} bullet points may be too many for one slide"]
      else [])
    let score3 := score2 +
      (if total_bullets > max_bullets_per_column * 2 then
        min 25 ((total_bullets - max_bullets_per_column * 2) * 2)
      else 0)
    let body3 : Option Nat :=
      if total_bullets > max_bullets_per_column * 2 then
        (if total_bullets > max_bullets_per_column * 2 + 4 then some 14 else some 16)
      else body2
    -- Check per-column bullet count for two-column layouts
    let warnings4 := warnings3 ++
      (if in_left_column && in_right_column then
        (if left_bullets > max_bullets_per_column then
          [s!"Left column has {left_bullets} bullet points (recommended: {max_bullets_per_column})"]
        else []) ++
        (if right_bullets > max_bullets_per_column then
          [s!"Right column has {right_bullets} bullet points (recommended: {max_bullets_per_column})"]
        else [])
      else if total_bullets > max_bullets_per_column then
        [s!"Found {total_bullets} bullet points in a single column (recommended: {max_bullets_per_column})"]
      else [])
    let score4 := score3 +
      (if in_left_column && in_right_column then
        (if left_bullets > max_bullets_per_column then
          min 15 ((left_bullets - max_bullets_per_column) * 2)
        else 0) +
        (if right_bullets > max_bullets_per_column then
          min 15 ((right_bullets - max_bullets_per_column) * 2)
        else 0)
      else if total_bullets > max_bullets_per_column then
        min 20 ((total_bullets - max_bullets_per_column) * 2)
      else 0)
    let max_column_bullets := Nat.max left_bullets right_bullets
    let body4 : Option Nat :=
      if in_left_column && in_right_column then
        (if max_column_bullets > max_bullets_per_column + 4 then some 14
         else if max_column_bullets > max_bullets_per_column then some 16
         else body3)
      else if total_bullets > max_bullets_per_column then
        (if total_bullets > max_bullets_per_column + 4 then some 14 else some 16)
      else body3
    -- Check total lines
    let warnings5 := warnings4 ++
      (if total_lines > max_lines then
        [s!"Content has {total_lines} lines, which may be too many for one slide (recommended: {max_lines})"]
      else [])
    let score5 := score4 +
      (if total_lines > max_lines then min 25 ((total_lines - max_lines) * 2) else 0)
    let fs_subtitle : Option Nat :=
      if total_lines > max_lines then
        (if total_lines > max_lines + 5 then some 20 else none)
      else none
    { fits := warnings5.isEmpty,
      warnings := warnings5,
      suggested_font_size := { title := fs_title, subtitle := fs_subtitle, body := body4 },
      content_complexity := min 100 score5 }

/-! ## Layout resolution in `add_slide_from_blob_url` -/

/-- A slide layout: only its name matters to the resolver. -/
structure Layout where
  name : String
deriving DecidableEq

/-- A slide master owning an ordered sequence of layouts. -/
structure SlideMaster where
  slide_layouts : List Layout
deriving DecidableEq

/-- The document's layout catalog: an ordered sequence of masters. -/
structure PresentationDoc where
  slide_masters : List SlideMaster
deriving DecidableEq

/-- Python truthiness of the `slide_type: Optional[str]` argument:
`None` and `""` are falsy. -/
def pyTruthyStr : Option String → Bool
  | none => false
  | some s => s != ""

/-- All layouts in master-then-layout enumeration order, as iterated by the
nested `for master in presentation.slide_masters: for layout in
master.slide_layouts:` loops. -/
def allLayouts (prs : PresentationDoc) : List Layout :=
  (prs.slide_masters.map SlideMaster.slide_layouts).flatten

/-- The exact-name search loop. -/
def findLayoutExact (prs : PresentationDoc) (name : String) : Option Layout :=
  (allLayouts prs).find? (fun l => l.name == name)

/-- The case-insensitive search loop (`layout.name.lower() ==
selected_layout_lower`). -/
def findLayoutCI (prs : PresentationDoc) (name : String) : Option Layout :=
  (allLayouts prs).find? (fun l => lowerStr l.name == lowerStr name)

/-- `presentation.slide_layouts[0]`: the first layout of the first master;
an `IndexError` if the document has no master or the first master has no
layout. -/
def defaultLayout (prs : PresentationDoc) : Except String Layout :=
  match prs.slide_masters with
  | [] => Except.error "IndexError: list index out of range"
  | m :: _ =>
    match m.slide_layouts with
    | [] => Except.error "IndexError: list index out of range"
    | l :: _ => Except.ok l

/-- The layout-selection block of `add_slide_from_blob_url` (lines 353-394):
if `slide_type` is truthy it is used as the selected name (exact match, then
case-insensitive match, then default layout); otherwise the auto-selection
assignment is commented out in the source and the subsequent use of
`selected_layout_name` raises a `NameError`, which the enclosing handler
turns into an aborted call. -/
def resolve_layout (slide_type : Option String) (prs : PresentationDoc) :
    Except String Layout :=
  if pyTruthyStr slide_type then
    let selected_layout_name := slide_type.getD ""
    match findLayoutExact prs selected_layout_name with
    | some l => Except.ok l
    | none =>
      match (if pyTruthyStr slide_type then findLayoutCI prs selected_layout_name
             else none) with
      | some l => Except.ok l
      | none => defaultLayout prs
  else
    Except.error "NameError: name selected_layout_name is not defined"

/-! ## Content distribution in `add_slide_from_blob_url` -/

/-- The title-consumption step (lines 418-432): if a Title placeholder exists
and lines remain, the first line becomes the title and is consumed. Returns
the assigned text and the remaining lines. -/
def take_title (hasTitle : Bool) (lines : List String) :
    Option String × List String :=
  if hasTitle = true ∧ lines ≠ [] then (some (lines.headD ""), lines.tail)
  else (none, lines)

/-- The subtitle-consumption step (lines 435-447): if a Subtitle placeholder
exists, lines remain, and `len(lines[0].strip()) < 50`, the next line becomes
the subtitle and is consumed. -/
def take_subtitle (hasSubtitle : Bool) (lines : List String) :
    Option String × List String :=
  if hasSubtitle = true ∧ lines ≠ [] ∧ (pyStrip (lines.headD "")).data.length < 50 then
    (some (lines.headD ""), lines.tail)
  else (none, lines)

/-- The column-partition loop (lines 469-486). State: `column_mode` and
whether `current_column == "left"`; initial state is `(false, true)`.
Marker lines are consumed; every other line is appended to the left list
unless column mode is on and the current column is the right one. -/
def split_columns : List String → Bool → Bool → List String × List String
  | [], _, _ => ([], [])
  | line :: rest, column_mode, currentLeft =>
    if hasLeftMarker line then split_columns rest true true
    else if hasRightMarker line then split_columns rest true false
    else
      let p := split_columns rest column_mode currentLeft
      if column_mode then
        (if currentLeft then (line :: p.1, p.2) else (p.1, line :: p.2))
      else (line :: p.1, p.2)

/-- The final value of the `column_mode` flag: true iff some line carries a
column marker. -/
def columnModeOf : List String → Bool
  | [] => false
  | line :: rest => hasLeftMarker line || hasRightMarker line || columnModeOf rest

/-- Non-marker lines, in original order: the lines the partition loop does
not consume as directives. -/
def nonMarkerLines (lines : List String) : List String :=
  lines.filter (fun l => !(hasLeftMarker l || hasRightMarker l))

/-- The texts written by the content-distribution block: title text, subtitle
text, the texts of the Body/Content placeholders in enumeration order, and
the text of the fallback textbox, `none`/`[]` when not written. -/
structure DistResult where
  titleText : Option String
  subtitleText : Option String
  contentTexts : List String
  textboxText : Option String
deriving DecidableEq

/-- The content-distribution block of `add_slide_from_blob_url`
(lines 418-532), abstracted over which placeholders the new slide has:
`hasTitle`/`hasSubtitle` for type-1/type-2 placeholders and `numContent` for
the number of type-3/7 Body placeholders. `lines0` is `content.split('\n')`. -/
def distribute_content (hasTitle hasSubtitle : Bool) (numContent : Nat)
    (lines0 : List String) : DistResult :=
  let t := take_title hasTitle lines0
  let s := take_subtitle hasSubtitle t.2
  let cols := split_columns s.2 false true
  let column_mode := columnModeOf s.2
  let left_column_content := cols.1
  let right_column_content := cols.2
  if numContent = 2 ∧ column_mode = true then
    { titleText := t.1, subtitleText := s.1,
      contentTexts := [joinNL left_column_content, joinNL right_column_content],
      textboxText := none }
  else if numContent = 2 ∧ column_mode = false then
    let middle := left_column_content.length / 2
    { titleText := t.1, subtitleText := s.1,
      contentTexts := [joinNL (left_column_content.take middle),
                       joinNL (left_column_content.drop middle)],
      textboxText := none }
  else if numContent ≠ 0 then
    { titleText := t.1, subtitleText := s.1,
      contentTexts := [joinNL left_column_content],
      textboxText := none }
  else if left_column_content ≠ [] ∨ right_column_content ≠ [] then
    { titleText := t.1, subtitleText := s.1, contentTexts := [],
      textboxText := some (joinNL (left_column_content ++ right_column_content)) }
  else
    { titleText := t.1, subtitleText := s.1, contentTexts := [],
      textboxText := none }

/-! ## `update_powerpoint_file` -/

/-- A placeholder shape on an existing slide: its placeholder index, its
text, and the font size of its runs (`none` = unchanged default). -/
structure UpdateShape where
  placeholder_idx : Nat
  text : String
  font_size : Option Nat
deriving DecidableEq

/-- A slide addressed by the batch updater. -/
structure UpdateSlide where
  shapes : List UpdateShape
deriving DecidableEq

/-- A presentation addressed by the batch updater. -/
structure UpdatePrs where
  slides : List UpdateSlide
deriving DecidableEq

/-- One inner update dictionary: `placeholder_idx`, `text`, `font_size`,
each possibly absent. -/
structure PlaceholderUpdate where
  placeholder_idx : Option Nat
  text : Option String
  font_size : Option Nat
deriving DecidableEq

/-- One slide update instruction: `slide_index` (possibly absent, possibly
negative) and its inner updates. -/
structure SlideUpdate where
  slide_index : Option Int
  updates : List PlaceholderUpdate
deriving DecidableEq

/-- Overwrite the text (and, when `font_size` is truthy, the run font size)
of the first shape whose placeholder index matches. -/
def setFirstMatching : List UpdateShape → Nat → String → Option Nat → List UpdateShape
  | [], _, _, _ => []
  | sh :: rest, idx, txt, fs =>
    if sh.placeholder_idx = idx then
      { sh with
        text := txt,
        font_size :=
          (match fs with
           | some n => if n ≠ 0 then some n else sh.font_size
           | none => sh.font_size) } :: rest
    else sh :: setFirstMatching rest idx txt fs

/-- Apply one inner update to a slide: skipped when `placeholder_idx` or
`text` is missing or no shape carries that placeholder index. -/
def applyPlaceholderUpdate (slide : UpdateSlide) (u : PlaceholderUpdate) :
    UpdateSlide :=
  match u.placeholder_idx, u.text with
  | some idx, some txt =>
    if slide.shapes.any (fun s => s.placeholder_idx == idx) then
      { shapes := setFirstMatching slide.shapes idx txt u.font_size }
    else slide
  | _, _ => slide

/-- Apply all inner updates of one instruction, in order. -/
def applySlideUpdate (slide : UpdateSlide) (us : List PlaceholderUpdate) :
    UpdateSlide :=
  us.foldl applyPlaceholderUpdate slide

/-- `l[n]` with a default, by structural recursion so the kernel can
evaluate it. -/
def listGetD {α : Type} : List α → Nat → α → α
  | [], _, d => d
  | x :: _, 0, _ => x
  | _ :: xs, n + 1, d => listGetD xs n d

/-- The instruction loop of `update_powerpoint_file`: instructions with a
missing or out-of-range `slide_index` are skipped. -/
def applyBatch (prs : UpdatePrs) : List SlideUpdate → UpdatePrs
  | [] => prs
  | u :: rest =>
    match u.slide_index with
    | none => applyBatch prs rest
    | some i =>
      if i < 0 ∨ (prs.slides.length : Int) ≤ i then applyBatch prs rest
      else
        let n := i.toNat
        let newSlides :=
          prs.slides.set n (applySlideUpdate (listGetD prs.slides n ⟨[]⟩) u.updates)
        applyBatch { slides := newSlides } rest

/-- `update_powerpoint_file(file_path, slide_updates)`: the in-memory open
and save always succeed, so the function returns `True` together with the
updated presentation regardless of skipped instructions. -/
def update_powerpoint_file (prs : UpdatePrs) (slide_updates : List SlideUpdate) :
    Bool × UpdatePrs :=
  (true, applyBatch prs slide_updates)

/-! ## Concrete inputs used by the evaluation theorems -/

/-- Twenty bullet lines, the scenario of spec §8. -/
def c7content : String := joinNL (List.replicate 20 "- p")

/-- Two-column content whose left column holds 2 bullets and right column 1. -/
def c2content : String := "LEFT COLUMN:\n- a\n- b\nRIGHT COLUMN:\n- c"

/-- A catalog with one master holding two layouts. -/
def demoPrs : PresentationDoc :=
  { slide_masters :=
      [{ slide_layouts := [{ name := "Title Slide" }, { name := "Title and Content" }] }] }

/-- A presentation with one slide holding one placeholder, for the batch
update scenario. -/
def wPrs : UpdatePrs :=
  { slides := [{ shapes := [{ placeholder_idx := 0, text := "old", font_size := none }] }] }

/-- A batch instruction with an out-of-range slide index. -/
def badUpdate : SlideUpdate := { slide_index := some 5, updates := [] }

/-- A valid batch instruction rewriting placeholder 0 of slide 0. -/
def goodUpdate : SlideUpdate :=
  { slide_index := some 0,
    updates := [{ placeholder_idx := some 0, text := some "new", font_size := none }] }

/-- A line whose trimmed length is at least 50 characters. -/
def longSubtitleLine : String :=
  "this candidate subtitle line is definitely longer than fifty characters"

/-! ## Theorems -/

/-- C1 (counterexample): for empty content, `check_content_fit` returns a
non-empty warnings list (the single warning "Content is empty") while `fits`
is still `true`, so "fits is false iff warnings is non-empty" fails as
stated over all inputs. -/
theorem empty_content_fits_despite_warning :
    (check_content_fit "" 10 15 8 80).fits = true ∧
    (check_content_fit "" 10 15 8 80).warnings = ["Content is empty"] := by
  exact ⟨rfl, rfl⟩

/-- C1 (amended): for every content that is non-empty after stripping,
the assessment's `fits` flag is false iff its warnings list is non-empty. -/
theorem fits_false_iff_warnings (content : String) (mtw ml mb mc : Nat)
    (h : pyStrip content ≠ "") :
    ((check_content_fit content mtw ml mb mc).fits = false ↔
      (check_content_fit content mtw ml mb mc).warnings ≠ []) := by
  have hfw : (check_content_fit content mtw ml mb mc).fits =
      (check_content_fit content mtw ml mb mc).warnings.isEmpty := by
    unfold check_content_fit
    rw [if_neg h]
  rw [hfw]
  cases hw : (check_content_fit content mtw ml mb mc).warnings <;> simp

/-- C1 witness: instantiation of `fits_false_iff_warnings` at a concrete
non-empty content. -/
theorem fits_false_iff_warnings_witness :
    pyStrip "hello" ≠ "" ∧
    ((check_content_fit "hello" 10 15 8 80).fits = false ↔
      (check_content_fit "hello" 10 15 8 80).warnings ≠ []) :=
  ⟨by decide, fits_false_iff_warnings "hello" 10 15 8 80 (by decide)⟩

/-- C2 (code bug evaluation): content with both column markers, whose left
column holds 2 bullets and right column 1, assessed with
`max_bullets_per_column = 1`: the scan leaves the flag state at
`(in_left_column, in_right_column) = (false, true)`, so the per-column branch
(guarded by their conjunction) is not taken and only the total-bullet and
single-column warnings are produced — no "Left column has ..." warning. -/
theorem two_column_markers_no_per_column_warning :
    (check_content_fit c2content 10 15 1 80).warnings =
      ["Total of 3 bullet points may be too many for one slide",
       "Found 3 bullet points in a single column (recommended: 1)"] ∧
    ((check_content_fit c2content 10 15 1 80).warnings.all
      (fun w => !(containsSub "Left column has".data w.data))) = true ∧
    hasLeftMarker "LEFT COLUMN:" = true ∧
    hasRightMarker "RIGHT COLUMN:" = true ∧
    (bulletScan (pyLines c2content) false false).1 = 2 ∧
    (bulletScan (pyLines c2content) false false).2.1 = 1 ∧
    (bulletScan (pyLines c2content) false false).2.2 = (false, true) := by decide

/-- C3 (code bug evaluation): with no layout name supplied, the
layout-selection block raises `NameError` (its auto-selection assignment is
commented out), aborting the call — even though the structural fallback (the
first layout of the first master) exists in the same catalog. -/
theorem no_slide_type_raises_name_error :
    resolve_layout none demoPrs =
      Except.error "NameError: name selected_layout_name is not defined" ∧
    defaultLayout demoPrs = Except.ok { name := "Title Slide" } := by
  exact ⟨rfl, rfl⟩

/-- C4 (code bug evaluation): with column markers present and a single
Body/Content placeholder, the distributor assigns only the left-side line
"a" to the placeholder; the right-side line "b" is neither assigned to any
placeholder nor to a textbox — it is dropped. -/
theorem single_placeholder_drops_right_column :
    distribute_content false false 1 ["LEFT COLUMN:", "a", "RIGHT COLUMN:", "b"] =
      { titleText := none, subtitleText := none, contentTexts := ["a"],
        textboxText := none } ∧
    split_columns ["LEFT COLUMN:", "a", "RIGHT COLUMN:", "b"] false true =
      (["a"], ["b"]) := by decide

/-- C5 (counterexample): when a `RIGHT COLUMN:` marker precedes a
`LEFT COLUMN:` marker, `left ++ right` is `["l", "r"]` while the original
non-marker sequence is `["r", "l"]`: the concatenation does not equal the
original non-marker line sequence. -/
theorem column_concat_ne_original_order :
    (split_columns ["RIGHT COLUMN:", "r", "LEFT COLUMN:", "l"] false true).1 ++
      (split_columns ["RIGHT COLUMN:", "r", "LEFT COLUMN:", "l"] false true).2 =
      ["l", "r"] ∧
    nonMarkerLines ["RIGHT COLUMN:", "r", "LEFT COLUMN:", "l"] = ["r", "l"] ∧
    (["l", "r"] : List String) ≠ ["r", "l"] := by decide

/-- C7: twenty bullet lines with `max_bullets_per_column = 8` and default
other limits: `fits` is false, a warning mentions "20", and the suggested
body font size is 14. -/
theorem twenty_bullets_overflow_assessment :
    (check_content_fit c7content 10 15 8 80).fits = false ∧
    ((check_content_fit c7content 10 15 8 80).warnings.any
      (fun w => containsSub "20".data w.data)) = true ∧
    (check_content_fit c7content 10 15 8 80).suggested_font_size.body = some 14 ∧
    (pyLines c7content).length = 20 ∧
    ((pyLines c7content).all countsAsBullet) = true := by decide

/-- Helper for C5: from any loop state, the two column lists are
subsequences of the non-marker lines and their concatenation is a
permutation of them. -/
theorem split_columns_spec (lines : List String) : ∀ (m cl : Bool),
    ((split_columns lines m cl).1 ++ (split_columns lines m cl).2).Perm
      (nonMarkerLines lines) ∧
    (split_columns lines m cl).1.Sublist (nonMarkerLines lines) ∧
    (split_columns lines m cl).2.Sublist (nonMarkerLines lines) := by
  induction lines with
  | nil =>
    intro m cl
    simp [split_columns, nonMarkerLines]
  | cons l ls ih =>
    intro m cl
    by_cases hL : hasLeftMarker l = true
    · have hfilter : nonMarkerLines (l :: ls) = nonMarkerLines ls := by
        simp [nonMarkerLines, List.filter_cons, hL]
      have hsc : split_columns (l :: ls) m cl = split_columns ls true true := by
        simp [split_columns, hL]
      rw [hfilter, hsc]
      exact ih true true
    · by_cases hR : hasRightMarker l = true
      · have hfilter : nonMarkerLines (l :: ls) = nonMarkerLines ls := by
          simp [nonMarkerLines, List.filter_cons, hL, hR]
        have hsc : split_columns (l :: ls) m cl = split_columns ls true false := by
          simp [split_columns, hL, hR]
        rw [hfilter, hsc]
        exact ih true false
      · have hfilter : nonMarkerLines (l :: ls) = l :: nonMarkerLines ls := by
          simp [nonMarkerLines, List.filter_cons, hL, hR]
        obtain ⟨ihp, ihs1, ihs2⟩ := ih m cl
        by_cases hdest : m = true ∧ cl = false
        · have hsc : split_columns (l :: ls) m cl =
              ((split_columns ls m cl).1, l :: (split_columns ls m cl).2) := by
            simp [split_columns, hL, hR, hdest.1, hdest.2]
          rw [hfilter, hsc]
          refine ⟨?_, ihs1.cons l, ihs2.cons₂ l⟩
          exact List.perm_middle.trans (ihp.cons l)
        · have hsc : split_columns (l :: ls) m cl =
              (l :: (split_columns ls m cl).1, (split_columns ls m cl).2) := by
            cases m with
            | false => simp [split_columns, hL, hR]
            | true =>
              cases cl with
              | false => exact absurd ⟨rfl, rfl⟩ hdest
              | true => simp [split_columns, hL, hR]
          rw [hfilter, hsc]
          exact ⟨ihp.cons l, ihs1.cons₂ l, ihs2.cons l⟩

/-- C5 (amended): for the distributor's column partition (initial state:
column mode off, current column left), every non-marker line lands in
exactly one of the two columns, the relative order within each column is
preserved (each column is a subsequence of the non-marker lines), and
`left ++ right` is a permutation of the non-marker lines. -/
theorem split_columns_partition (lines : List String) :
    ((split_columns lines false true).1 ++ (split_columns lines false true).2).Perm
      (nonMarkerLines lines) ∧
    (split_columns lines false true).1.Sublist (nonMarkerLines lines) ∧
    (split_columns lines false true).2.Sublist (nonMarkerLines lines) :=
  split_columns_spec lines false true

/-- C6 (counterexample): the empty string is an explicitly supplied layout
name matching no layout of the catalog (exactly or case-insensitively), yet
resolution raises instead of returning the first layout of the first master:
Python truthiness sends `slide_type=""` down the no-name branch, whose
`selected_layout_name` use raises `NameError`. -/
theorem empty_requested_name_raises :
    resolve_layout (some "") demoPrs =
      Except.error "NameError: name selected_layout_name is not defined" ∧
    ((allLayouts demoPrs).all
      (fun l => !(l.name == "") && !(lowerStr l.name == lowerStr ""))) = true := by
  exact ⟨rfl, by decide⟩

/-- C6 (amended): for every non-empty requested layout name that matches no
layout of the catalog exactly or case-insensitively, resolution returns the
first layout of the first master without raising. -/
theorem unmatched_name_resolves_to_default (name : String)
    (prs : PresentationDoc) (m0 : SlideMaster) (ms : List SlideMaster)
    (l0 : Layout) (ls : List Layout)
    (hprs : prs.slide_masters = m0 :: ms) (hm0 : m0.slide_layouts = l0 :: ls)
    (hname : name ≠ "")
    (hexact : ∀ l ∈ allLayouts prs, l.name ≠ name)
    (hci : ∀ l ∈ allLayouts prs, lowerStr l.name ≠ lowerStr name) :
    resolve_layout (some name) prs = Except.ok l0 := by
  have he : findLayoutExact prs name = none := by
    apply List.find?_eq_none.mpr
    intro l hl
    simpa using hexact l hl
  have hc : findLayoutCI prs name = none := by
    apply List.find?_eq_none.mpr
    intro l hl
    simpa using hci l hl
  have htr : pyTruthyStr (some name) = true := by
    simp [pyTruthyStr, hname]
  simp [resolve_layout, htr, he, hc, defaultLayout, hprs, hm0]

/-- C6 witness: an absent name on the demo catalog resolves to the first
layout of the first master. -/
theorem unmatched_name_resolves_to_default_witness :
    ("Foo" : String) ≠ "" ∧
    resolve_layout (some "Foo") demoPrs = Except.ok { name := "Title Slide" } :=
  ⟨by decide,
   unmatched_name_resolves_to_default "Foo" demoPrs
     { slide_layouts := [{ name := "Title Slide" }, { name := "Title and Content" }] }
     [] { name := "Title Slide" } [{ name := "Title and Content" }]
     rfl rfl (by decide) (by decide) (by decide)⟩

/-- C8: the batch updater always reports success once the document is open
and savable (the in-memory transform), an instruction with a missing or
out-of-range slide index is skipped without affecting the rest of the batch,
and an inner update with a missing `placeholder_idx` or `text` or an absent
placeholder index leaves the slide unchanged. -/
theorem update_batch_best_effort (prs : UpdatePrs) (ups : List SlideUpdate) :
    (update_powerpoint_file prs ups).1 = true ∧
    (∀ (u : SlideUpdate) (rest : List SlideUpdate),
      (u.slide_index = none ∨
        ∃ i, u.slide_index = some i ∧ (i < 0 ∨ (prs.slides.length : Int) ≤ i)) →
      applyBatch prs (u :: rest) = applyBatch prs rest) ∧
    (∀ (slide : UpdateSlide) (pu : PlaceholderUpdate),
      (pu.placeholder_idx = none ∨ pu.text = none ∨
        ∀ s ∈ slide.shapes, some s.placeholder_idx ≠ pu.placeholder_idx) →
      applyPlaceholderUpdate slide pu = slide) := by
  refine ⟨rfl, ?_, ?_⟩
  · intro u rest h
    rcases h with h | ⟨i, hi, hrange⟩
    · simp [applyBatch, h]
    · simp [applyBatch, hi, if_pos hrange]
  · intro slide pu h
    rcases h with h | h | h
    · simp [applyPlaceholderUpdate, h]
    · cases hp : pu.placeholder_idx <;> simp [applyPlaceholderUpdate, hp, h]
    · cases hp : pu.placeholder_idx with
      | none => simp [applyPlaceholderUpdate, hp]
      | some i =>
        cases ht : pu.text with
        | none => simp [applyPlaceholderUpdate, hp, ht]
        | some txt =>
          have hany : slide.shapes.any (fun s => s.placeholder_idx == i) = false := by
            rw [List.any_eq_false]
            intro s hs
            have hne := h s hs
            rw [hp] at hne
            simpa using fun heq => hne (by rw [heq])
          simp [applyPlaceholderUpdate, hp, ht, hany]

/-- C8 witness: a batch with one out-of-range and one valid instruction
reports success, the invalid instruction is skipped, and the valid one is
applied. -/
theorem update_batch_best_effort_witness :
    (update_powerpoint_file wPrs [badUpdate, goodUpdate]).1 = true ∧
    applyBatch wPrs [badUpdate, goodUpdate] = applyBatch wPrs [goodUpdate] ∧
    (update_powerpoint_file wPrs [badUpdate, goodUpdate]).2 =
      { slides := [{ shapes :=
          [{ placeholder_idx := 0, text := "new", font_size := none }] }] } :=
  ⟨(update_batch_best_effort wPrs [badUpdate, goodUpdate]).1,
   (update_batch_best_effort wPrs [badUpdate, goodUpdate]).2.1 badUpdate [goodUpdate]
     (Or.inr ⟨5, rfl, by decide⟩),
   by decide⟩

/-- C9: the title step consumes at most the first remaining line; the
subtitle step consumes at most one further line, and assigns a subtitle iff
a Subtitle placeholder exists, lines remain, and the next line's trimmed
length is under 50 characters; a next line of trimmed length at least 50 is
left untouched for the body. -/
theorem title_subtitle_consumption (hT hS : Bool) (lines : List String) :
    ((take_title hT lines).2 = lines ∨ (take_title hT lines).2 = lines.tail) ∧
    ((take_subtitle hS (take_title hT lines).2).2 = (take_title hT lines).2 ∨
      (take_subtitle hS (take_title hT lines).2).2 = (take_title hT lines).2.tail) ∧
    ((take_subtitle hS (take_title hT lines).2).1.isSome = true ↔
      (hS = true ∧ (take_title hT lines).2 ≠ [] ∧
        (pyStrip ((take_title hT lines).2.headD "")).data.length < 50)) ∧
    (50 ≤ (pyStrip ((take_title hT lines).2.headD "")).data.length →
      (take_subtitle hS (take_title hT lines).2).1 = none ∧
      (take_subtitle hS (take_title hT lines).2).2 = (take_title hT lines).2) := by
  have h1 : (take_title hT lines).2 = lines ∨ (take_title hT lines).2 = lines.tail := by
    unfold take_title
    by_cases h : hT = true ∧ lines ≠ []
    · rw [if_pos h]; right; rfl
    · rw [if_neg h]; left; rfl
  have h2 : ∀ L : List String,
      ((take_subtitle hS L).2 = L ∨ (take_subtitle hS L).2 = L.tail) ∧
      ((take_subtitle hS L).1.isSome = true ↔
        (hS = true ∧ L ≠ [] ∧ (pyStrip (L.headD "")).data.length < 50)) ∧
      (50 ≤ (pyStrip (L.headD "")).data.length →
        (take_subtitle hS L).1 = none ∧ (take_subtitle hS L).2 = L) := by
    intro L
    unfold take_subtitle
    by_cases h : hS = true ∧ L ≠ [] ∧ (pyStrip (L.headD "")).data.length < 50
    · rw [if_pos h]
      refine ⟨Or.inr rfl, iff_of_true rfl h, ?_⟩
      intro h50
      exact absurd h.2.2 (by omega)
    · rw [if_neg h]
      exact ⟨Or.inl rfl, iff_of_false (by simp) h, fun _ => ⟨rfl, rfl⟩⟩
  exact ⟨h1, (h2 _).1, (h2 _).2.1, (h2 _).2.2⟩

/-- C9 witness: a next line of trimmed length at least 50 is not consumed as
a subtitle. -/
theorem title_subtitle_consumption_witness :
    50 ≤ (pyStrip ((take_title true ["T", longSubtitleLine]).2.headD "")).data.length ∧
    (take_subtitle true (take_title true ["T", longSubtitleLine]).2).1 = none :=
  ⟨by decide,
   ((title_subtitle_consumption true true ["T", longSubtitleLine]).2.2.2 (by decide)).1⟩

/-- C10: a trimmed line is recognized as numbered exactly when it is longer
than 2 characters, its first character is a digit and its second is a
period; consequently the lines "1." and "10. item" are not counted as
bullets. -/
theorem numbered_line_recognition :
    (∀ t : String, is_numbered t = true ↔
      (2 < t.data.length ∧ (t.data.getD 0 ' ').isDigit = true ∧
        t.data.getD 1 ' ' = '.')) ∧
    countsAsBullet "1." = false ∧
    countsAsBullet "10. item" = false := by
  refine ⟨?_, by decide, by decide⟩
  intro t
  obtain ⟨l⟩ := t
  match l with
  | [] => simp [is_numbered]
  | [c0] => simp [is_numbered]
  | [c0, c1] => simp [is_numbered]
  | c0 :: c1 :: c2 :: rest =>
    simp [is_numbered, List.getD, show 2 < rest.length + 3 from by omega]

end PptxTools

